import Mathlib

/-!
Verification development for the azure-kinect-video-player repository.

The Python sources are shallowly embedded as follows:

* `src/azure_kinect_video_player/image_scaler.py` — `lutVal`, `map_uint16_to_uint8`
  (images are `Img`, a width/height/channel count plus a total pixel function);
* `src/azure_kinect_video_player/player.py` — `combine_images` together with the
  numpy-slice-assignment model `pasteSlice` and `cvtGray2BGR`;
* `src/azure_kinect_video_player/playback_wrapper.py` — the frame-rate resolver
  `resolvedFrameRate`, the realtime scheduler `realtimeTick`/`skipFrames`, the
  session model `Wrapper`/`stop`, and the frame-reading generator `grab_frame`.

Machine integers are modelled as `Nat`/`Int` (pixel values fit in 16 bits by
construction), wall-clock times and frame rates as `ℚ`, fallible code as
`Except String`.  `numpy.linspace` is modelled in exact rational arithmetic;
`astype(np.uint16)` on its non-negative entries is truncation toward zero,
i.e. the floor, which on naturals is `Nat` division.
-/

namespace AzureKinect

/-- A numpy array of pixel data: `height × width × channels`, with a total
function giving the sample at row `y`, column `x`, channel `c` (single-channel
images use `c = 0` and ignore the channel argument). -/
structure Img where
  height : Nat
  width : Nat
  channels : Nat
  data : Nat → Nat → Nat → Nat

/-- Pixel-value map realised by the lookup table of `map_uint16_to_uint8`
(image_scaler.py lines 49-53):
`np.concatenate([np.zeros(lower), np.linspace(0, 255, upper - lower).astype(np.uint16), np.ones(65536 - upper) * 255])`.
`np.linspace(0, 255, n)` has entry `255 * k / (n - 1)` at index `k` when
`n ≥ 2` (and the single entry `0` when `n = 1`); `astype(np.uint16)` truncates
toward zero, so the entry stored in the table is the `Nat`-division floor. -/
def lutVal (lower upper v : Nat) : Nat :=
  if v < lower then 0
  else if v < upper then
    if upper - lower = 1 then 0
    else 255 * (v - lower) / (upper - lower - 1)
  else 255

/-- All sample values of an image, in row/column/channel order (used to model
`numpy.min`/`numpy.max` over an array). -/
def imgVals (img : Img) : List Nat :=
  (List.range img.height).flatMap fun y =>
    (List.range img.width).flatMap fun x =>
      (List.range img.channels).map fun c => img.data y x c

/-- Model of `numpy.min(image)` (images handed to the scaler are non-empty). -/
def npMin (img : Img) : Nat := ((imgVals img).min?).getD 0

/-- Model of `numpy.max(image)`. -/
def npMax (img : Img) : Nat := ((imgVals img).max?).getD 0

/-- Model of the bound validation `not (0 <= bound < 2**16)` performed for a
bound that was explicitly supplied (image_scaler.py lines 32-37). -/
def boundOutOfRange : Option Int → Bool
  | none => false
  | some b => if 0 ≤ b ∧ b < 65536 then false else true

/-- Pixelwise application of the lookup table to an image: models
`lut[image].astype(np.uint8)` (all table entries are at most 255, so the final
`astype(np.uint8)` does not change any value). -/
def lutImg (lower upper : Nat) (img : Img) : Img :=
  { height := img.height, width := img.width, channels := img.channels,
    data := fun y x c => lutVal lower upper (img.data y x c) }

/-- Embedding of `map_uint16_to_uint8(image, lower_bound, upper_bound)`
(image_scaler.py lines 6-55).  Bounds are `Option Int` exactly as in the
source (`None` falls back to `np.min`/`np.max` of the image); invalid bounds
raise `ValueError`, modelled as `Except.error`. -/
def map_uint16_to_uint8 (image : Img) (lower_bound upper_bound : Option Int) :
    Except String Img :=
  if boundOutOfRange lower_bound then
    .error ("lower_bound must be in the range [0, 65535]")
  else if boundOutOfRange upper_bound then
    .error ("upper_bound must be in the range [0, 65535]")
  else
    let lb : Int := lower_bound.getD (npMin image)
    let ub : Int := upper_bound.getD (npMax image)
    if lb ≥ ub then .error ("lower_bound must be smaller than upper_bound")
    else .ok (lutImg lb.toNat ub.toNat image)

/-- Model of `cv2.cvtColor(img, cv2.COLOR_GRAY2BGR)`: a single-channel image
becomes a 3-channel image with the grey value replicated into every channel. -/
def cvtGray2BGR (img : Img) : Img :=
  { height := img.height, width := img.width, channels := 3,
    data := fun y x _ => img.data y x 0 }

/-- Model of `numpy.zeros((h, w, c), dtype=numpy.uint8)`. -/
def npZeros (h w c : Nat) : Img :=
  { height := h, width := w, channels := c, data := fun _ _ _ => 0 }

/-- The image produced by the numpy slice assignment
`canvas[y0:y1, x0:x1] = src` when the region shape matches `src` exactly. -/
def pasteData (canvas src : Img) (y0 y1 x0 x1 : Nat) : Img :=
  { height := canvas.height, width := canvas.width, channels := canvas.channels,
    data := fun y x c =>
      if y0 ≤ y ∧ y < y1 ∧ x0 ≤ x ∧ x < x1 then src.data (y - y0) (x - x0) c
      else canvas.data y x c }

/-- Model of the numpy slice assignment `canvas[y0:y1, x0:x1] = src`.  Slice
bounds clip to the canvas extent, as numpy slices do; the assignment succeeds
when the (clipped) region shape equals the source shape and raises a
broadcast `ValueError` otherwise.  (Degenerate numpy broadcasting of size-1
source axes is not modelled; no call site in the source relies on it.) -/
def pasteSlice (canvas src : Img) (y0 y1 x0 x1 : Nat) : Except String Img :=
  let ya := min y0 canvas.height
  let yb := min y1 canvas.height
  let xa := min x0 canvas.width
  let xb := min x1 canvas.width
  if (yb - ya = src.height ∧ xb - xa = src.width) ∧ canvas.channels = src.channels then
    .ok (pasteData canvas src ya yb xa xb)
  else .error ("could not broadcast input array")

/-- Embedding of `combine_images(rgb, depth, ir, depth_min_max, ir_min_max)`
(player.py lines 275-382).  The three layout branches and the error branch
follow the source's `if` cascade; the `.copy()` calls only guard against
aliasing and are identities here.  Depth and IR are first passed through
`map_uint16_to_uint8` with the supplied window and through
`cv2.cvtColor(..., COLOR_GRAY2BGR)`; exceptions propagate as `Except.error`. -/
def combine_images :
    Option Img → Option Img → Option Img → Int × Int → Int × Int → Except String Img
  | none, none, none, _, _ => .error ("All images are None")
  | some rgb, some depth, some ir, depth_min_max, ir_min_max => do
      let d8 ← map_uint16_to_uint8 depth (some depth_min_max.1) (some depth_min_max.2)
      let dB := cvtGray2BGR d8
      let i8 ← map_uint16_to_uint8 ir (some ir_min_max.1) (some ir_min_max.2)
      let iB := cvtGray2BGR i8
      let width := max rgb.width (dB.width + iB.width)
      let image := npZeros (rgb.height + dB.height) width 3
      let c1 ← pasteSlice image rgb 0 rgb.height
        ((width - rgb.width) / 2) ((width - rgb.width) / 2 + rgb.width)
      let c2 ← pasteSlice c1 dB rgb.height image.height 0 dB.width
      let c3 ← pasteSlice c2 iB rgb.height image.height (width - iB.width) width
      pure c3
  | some rgb, some depth, none, depth_min_max, _ => do
      let u8 ← map_uint16_to_uint8 depth (some depth_min_max.1) (some depth_min_max.2)
      let uB := cvtGray2BGR u8
      let width := max rgb.width uB.width
      let image := npZeros (rgb.height + uB.height) width 3
      let c1 ← pasteSlice image rgb 0 rgb.height
        ((width - rgb.width) / 2) ((width - rgb.width) / 2 + rgb.width)
      let c2 ← pasteSlice c1 uB rgb.height image.height
        ((width - uB.width) / 2) ((width - uB.width) / 2 + uB.width)
      pure c2
  | some rgb, none, some ir, _, ir_min_max => do
      let u8 ← map_uint16_to_uint8 ir (some ir_min_max.1) (some ir_min_max.2)
      let uB := cvtGray2BGR u8
      let width := max rgb.width uB.width
      let image := npZeros (rgb.height + uB.height) width 3
      let c1 ← pasteSlice image rgb 0 rgb.height
        ((width - rgb.width) / 2) ((width - rgb.width) / 2 + rgb.width)
      let c2 ← pasteSlice c1 uB rgb.height image.height
        ((width - uB.width) / 2) ((width - uB.width) / 2 + uB.width)
      pure c2
  | none, some depth, some ir, depth_min_max, ir_min_max => do
      let d8 ← map_uint16_to_uint8 depth (some depth_min_max.1) (some depth_min_max.2)
      let dB := cvtGray2BGR d8
      let i8 ← map_uint16_to_uint8 ir (some ir_min_max.1) (some ir_min_max.2)
      let iB := cvtGray2BGR i8
      let width := dB.width + iB.width
      let image := npZeros dB.height width 3
      let c1 ← pasteSlice image dB 0 image.height 0 dB.width
      let c2 ← pasteSlice c1 iB 0 image.height dB.width width
      pure c2
  | some rgb, none, none, _, _ => .ok rgb
  | none, some depth, none, _, _ => .ok depth
  | none, none, some ir, _, _ => .ok ir

/-- Model of Python's `str.split(sep)` for a one-character separator, over the
character list of the string: splits at every occurrence of `sep`, keeping
empty parts.  The accumulator holds the characters of the current part in
reverse; the result is never the empty list. -/
def splitOnChar (sep : Char) : List Char → List Char → List (List Char)
  | [], acc => [acc.reverse]
  | x :: xs, acc =>
    if x = sep then acc.reverse :: splitOnChar sep xs []
    else splitOnChar sep xs (x :: acc)

/-- Numeric value of a decimal digit character, `none` otherwise. -/
def digitVal? (c : Char) : Option Nat :=
  if c.isDigit then some (c.toNat - 48) else none

/-- Model of Python's `float(s)` restricted to non-empty strings of decimal
digits (the only shape `r_frame_rate` numerators and denominators take);
anything else raises `ValueError`, modelled as `none`.  The value is kept
exact, so the result is the parsed natural number. -/
def digitsToNat? (cs : List Char) : Option Nat :=
  if cs.isEmpty then none
  else cs.foldl
    (fun acc c =>
      match acc, digitVal? c with
      | some n, some d => some (n * 10 + d)
      | _, _ => none)
    (some 0)

/-- Embedding of the frame-rate resolution
`float(self._stream_info["streams"][0]["r_frame_rate"].split("/")[0])`
(playback_wrapper.py line 73), applied to the reported `r_frame_rate` string:
the string is split on `"/"` and only its first part is converted to a number.
The `float` conversion is exact on these integral values, so the result is a
rational. -/
def resolvedFrameRate (s : List Char) : Option ℚ :=
  match splitOnChar '/' s [] with
  | [] => none
  | part0 :: _ => (digitsToNat? part0).map fun n => (n : ℚ)

/-- Modelled from the spec: the scalar frame rate the specification promises,
namely numerator divided by denominator of the reported rational string
(spec §4.1, "Output: three StreamDescriptors plus a scalar frame rate
(numerator ÷ denominator)").  Used only to compare the resolver against the
specified value. -/
def specFrameRate (s : List Char) : Option ℚ :=
  match splitOnChar '/' s [] with
  | [num, den] =>
    match digitsToNat? num, digitsToNat? den with
    | some n, some d => if d = 0 then none else some ((n : ℚ) / (d : ℚ))
    | _, _ => none
  | _ => none

/-- Modelled from the spec: the value the specification assigns to the
normalizer on an in-window sample, `round(255 * (v - lower) / (upper - lower))`
(spec §4.5).  Used only to compare `lutVal` against the specified value. -/
def specNormalize (lower upper v : Nat) : ℤ :=
  round ((255 * ((v : ℚ) - (lower : ℚ))) / ((upper : ℚ) - (lower : ℚ)))

/-- Target wall-clock delivery time of frame `i`:
`self._start_time + (self._current_frame / self._frame_rate)`
(playback_wrapper.py lines 200 and 218). -/
def targetTime (startTime frameRate : ℚ) (i : Nat) : ℚ :=
  startTime + (i : ℚ) / frameRate

/-- Embedding of the catch-up loop of the realtime branch of `grab_frame`
(playback_wrapper.py lines 215-221):

`while current_time > next_frame_time:` read and discard a frame, advance
`self._current_frame`, recompute `next_frame_time`, and re-sample
`current_time = time.time()`.

`clock` gives the successive values returned by `time.time()`, `c` is the
index of the next sample, `i` is `self._current_frame` and `now` the value of
`current_time` at the loop head.  `fuel` bounds the number of iterations
(`none` means the loop did not exit within `fuel` steps); on exit the result
is the list of frame indices read (in order — the data of the last one is the
data the surrounding tick goes on to deliver), the final frame counter, the
final clock cursor and the final `current_time`. -/
def skipFrames (startTime frameRate : ℚ) (clock : Nat → ℚ) :
    Nat → Nat → Nat → ℚ → Option (List Nat × Nat × Nat × ℚ)
  | 0, _, _, _ => none
  | fuel + 1, i, c, now =>
    if now > targetTime startTime frameRate i then
      match skipFrames startTime frameRate clock fuel (i + 1) (c + 1) (clock c) with
      | none => none
      | some (reads, iF, cF, nowF) => some (i :: reads, iF, cF, nowF)
    else
      some ([], i, c, now)

/-- Embedding of one tick of the realtime branch of `grab_frame`
(playback_wrapper.py lines 194-224).  `next_frame_time` is computed for the
current frame counter `i`, `current_time` is sampled from `clock` at cursor
`c`; if the tick is early the reader sleeps and reads one frame, if it is late
the catch-up loop `skipFrames` runs, and on an exact hit one frame is read.
The result is as in `skipFrames`; the frame whose data the tick delivers is
the last element of the read list. -/
def realtimeTick (startTime frameRate : ℚ) (clock : Nat → ℚ)
    (fuel i c : Nat) : Option (List Nat × Nat × Nat × ℚ) :=
  let nextFrameTime := targetTime startTime frameRate i
  let currentTime := clock c
  if currentTime < nextFrameTime then some ([i], i + 1, c + 1, currentTime)
  else if currentTime > nextFrameTime then
    skipFrames startTime frameRate clock fuel i (c + 1) currentTime
  else some ([i], i + 1, c + 1, currentTime)

/-- One spawned ffmpeg decode process, tracking the externally visible
shutdown state touched by `stop()`: whether its stdout handle has been closed
and whether it has been killed. -/
structure Proc where
  stdoutClosed : Bool
  killed : Bool
deriving DecidableEq

/-- The state of an `AzureKinectPlaybackWrapper` relevant to its lifecycle:
`_ready_to_start` (true both before `start()` and after `stop()`), the list
`_procs` (one entry per channel, `none` for a disabled channel), the three
channel-enable flags and the stream dimensions resolved from the container. -/
structure Wrapper where
  readyToStart : Bool
  procs : List (Option Proc)
  runRgb : Bool
  runDepth : Bool
  runIr : Bool
  colourWidth : Nat
  colourHeight : Nat
  depthWidth : Nat
  depthHeight : Nat
  irWidth : Nat
  irHeight : Nat
deriving DecidableEq

/-- `self._colour_byte_size = width * height * 3` (playback_wrapper.py line 79). -/
def colourByteSize (w : Wrapper) : Nat := w.colourWidth * w.colourHeight * 3

/-- `self._depth_byte_size = width * height * 2` (playback_wrapper.py line 80). -/
def depthByteSize (w : Wrapper) : Nat := w.depthWidth * w.depthHeight * 2

/-- `self._ir_byte_size = width * height * 2` (playback_wrapper.py line 81). -/
def irByteSize (w : Wrapper) : Nat := w.irWidth * w.irHeight * 2

/-- Embedding of `AzureKinectPlaybackWrapper.stop()` (playback_wrapper.py
lines 264-280): if `_ready_to_start` is set the call returns immediately;
otherwise every non-absent process has its stdout closed and is killed, and
`_ready_to_start` is set again. -/
def stop (w : Wrapper) : Wrapper :=
  if w.readyToStart then w
  else
    { w with
      readyToStart := true,
      procs := w.procs.map (Option.map fun _ => { stdoutClosed := true, killed := true }) }

/-- A byte buffer returned by one `stdout.read(n)` call on a decode pipe. -/
abbrev Buf := List Nat

/-- Model of a blocking `stdout.read(n)` against a decode pipe whose
successive replies are given as a list of buffers: the next buffer is
consumed, and an exhausted pipe keeps returning the empty (zero-length)
buffer, which is how a closed pipe signals end-of-stream. -/
def pipeRead : List Buf → Buf × List Buf
  | [] => ([], [])
  | b :: rest => (b, rest)

/-- Model of
`np.frombuffer(data, dtype=np.uint8).reshape((h, w, 3))`
(playback_wrapper.py line 251) for the colour stream. -/
def frombufferU8 (buf : Buf) (h w : Nat) : Img :=
  { height := h, width := w, channels := 3,
    data := fun y x c => buf.getD ((y * w + x) * 3 + c) 0 }

/-- Model of
`np.frombuffer(data, dtype=np.uint16).reshape((h, w))`
(playback_wrapper.py lines 252-253) for the depth and IR streams: samples are
16-bit little-endian, so the sample at flat index `k` combines bytes `2k` and
`2k + 1`. -/
def frombufferU16 (buf : Buf) (h w : Nat) : Img :=
  { height := h, width := w, channels := 1,
    data := fun y x _ =>
      buf.getD ((y * w + x) * 2) 0 + 256 * buf.getD ((y * w + x) * 2 + 1) 0 }

/-- Everything observable from running the `grab_frame` generator to
completion: the tuples actually yielded to the consumer, whether the
corrupted-stream error message was printed, whether `self.stop()` was invoked
when the loop broke, and the generator's final `return` value (the payload of
the terminating `StopIteration`, which a `for` loop discards). -/
structure GrabOutcome where
  yielded : List (Option Img × Option Img × Option Img)
  errorPrinted : Bool
  stopped : Bool
  finalReturn : Option Img × Option Img × Option Img

/-- Embedding of the body of the `while True:` loop of `grab_frame`
(playback_wrapper.py lines 179-262) with `realtime_wait = False`, so each
iteration performs exactly one `read_frame()` (the realtime pacing branch is
modelled separately by `realtimeTick`).  Per iteration: each enabled channel
reads one buffer from its pipe (disabled channels read nothing and contribute
`None`); if any enabled channel's buffer length differs from that channel's
byte size the error message is printed and the loop breaks, after which
`self.stop()` runs and the generator returns `(None, None, None)`; otherwise
the buffers are decoded into images and the tuple is yielded.  `fuel` bounds
the number of iterations; `none` means the loop was still running after
`fuel` iterations. -/
def grabLoop (w : Wrapper) :
    Nat → List Buf → List Buf → List Buf →
    List (Option Img × Option Img × Option Img) → Option GrabOutcome
  | 0, _, _, _, _ => none
  | fuel + 1, cp, dp, ip, acc =>
    let cr := if w.runRgb then some (pipeRead cp) else none
    let dr := if w.runDepth then some (pipeRead dp) else none
    let ir := if w.runIr then some (pipeRead ip) else none
    let colourData := cr.map Prod.fst
    let depthData := dr.map Prod.fst
    let irData := ir.map Prod.fst
    if (w.runRgb = true ∧ (colourData.getD []).length ≠ colourByteSize w)
        ∨ (w.runDepth = true ∧ (depthData.getD []).length ≠ depthByteSize w)
        ∨ (w.runIr = true ∧ (irData.getD []).length ≠ irByteSize w) then
      some
        { yielded := acc.reverse, errorPrinted := true, stopped := true,
          finalReturn := (none, none, none) }
    else
      let colourImage :=
        if w.runRgb then
          some (frombufferU8 (colourData.getD []) w.colourHeight w.colourWidth)
        else none
      let depthImage :=
        if w.runDepth then
          some (frombufferU16 (depthData.getD []) w.depthHeight w.depthWidth)
        else none
      let irImage :=
        if w.runIr then
          some (frombufferU16 (irData.getD []) w.irHeight w.irWidth)
        else none
      grabLoop w fuel
        ((cr.map Prod.snd).getD cp) ((dr.map Prod.snd).getD dp)
        ((ir.map Prod.snd).getD ip)
        ((colourImage, depthImage, irImage) :: acc)

/-- Embedding of `AzureKinectPlaybackWrapper.grab_frame()` (playback_wrapper.py
lines 160-262), run to completion against the given pipe contents: advancing
the generator first checks `_ready_to_start` and raises
`RuntimeError("Must call start() before grab_frame()")` if `start()` has not
been called (or `stop()` has reset the state); otherwise the frame loop runs. -/
def grab_frame (w : Wrapper) (cp dp ip : List Buf) (fuel : Nat) :
    Except String (Option GrabOutcome) :=
  if w.readyToStart then .error ("Must call start() before grab_frame()")
  else .ok (grabLoop w fuel cp dp ip [])

/-- The combined canvas width of the all-three-images branch:
`width = max(rgb.shape[1], depth.shape[1] + ir.shape[1])` (player.py line 313). -/
def combinedWidth (r d i : Img) : Nat := max r.width (d.width + i.width)

/-- The column at which the colour image is placed on the combined canvas:
`(width - rgb.shape[1]) // 2` (player.py line 319). -/
def rgbOffset (r d i : Img) : Nat := (combinedWidth r d i - r.width) / 2

/-- The canvas built by the all-three-images branch of `combine_images` when
every slice assignment succeeds: colour pasted on the top rows at
`rgbOffset`, normalized depth on the bottom-left, normalized IR flush against
the right edge, zeros elsewhere. -/
def combineAllThree (r d i : Img) (dmm imm : Int × Int) : Img :=
  pasteData
    (pasteData
      (pasteData (npZeros (r.height + d.height) (combinedWidth r d i) 3)
        r 0 r.height (rgbOffset r d i) (rgbOffset r d i + r.width))
      (cvtGray2BGR (lutImg dmm.1.toNat dmm.2.toNat d))
      r.height (r.height + d.height) 0 d.width)
    (cvtGray2BGR (lutImg imm.1.toNat imm.2.toNat i))
    r.height (r.height + d.height)
    (combinedWidth r d i - i.width) (combinedWidth r d i)

/-- After `stop()` the wrapper is always back in the not-started state,
whichever branch was taken. -/
theorem stop_readyToStart (w : Wrapper) : (stop w).readyToStart = true := by
  unfold stop
  split
  · assumption
  · rfl

/-- C8: `combine_images` with all three images absent raises the
"All images are None" `ValueError` (the spec's `NoImagesToCompose`), and with
exactly one image present returns that very image — identical dimensions and
identical content. -/
theorem c8_compose_zero_or_one_image :
    (∀ dmm imm : Int × Int,
        combine_images none none none dmm imm = .error ("All images are None"))
    ∧ (∀ (img : Img) (dmm imm : Int × Int),
        combine_images (some img) none none dmm imm = .ok img)
    ∧ (∀ (img : Img) (dmm imm : Int × Int),
        combine_images none (some img) none dmm imm = .ok img)
    ∧ (∀ (img : Img) (dmm imm : Int × Int),
        combine_images none none (some img) dmm imm = .ok img) :=
  ⟨fun _ _ => rfl, fun _ _ _ => rfl, fun _ _ _ => rfl, fun _ _ _ => rfl⟩

/-- C9: `stop()` is idempotent — on a not-started session it is a no-op, a
second `stop()` after a first one changes nothing further, and a first
`stop()` on a running session closes the stdout handle of and kills every
spawned decode process. -/
theorem c9_stop_idempotent :
    (∀ w : Wrapper, w.readyToStart = true → stop w = w)
    ∧ (∀ w : Wrapper, stop (stop w) = stop w)
    ∧ (∀ w : Wrapper, w.readyToStart = false →
        ∀ p ∈ (stop w).procs, ∀ q : Proc, p = some q →
          q.stdoutClosed = true ∧ q.killed = true) := by
  have noop : ∀ w : Wrapper, w.readyToStart = true → stop w = w := by
    intro w h
    simp [stop, h]
  refine ⟨noop, fun w => noop (stop w) (stop_readyToStart w), ?_⟩
  intro w h p hp q hq
  rw [stop, if_neg (by simp [h])] at hp
  simp only [List.mem_map] at hp
  obtain ⟨p₀, _, hmap⟩ := hp
  cases p₀ with
  | none => exact Option.noConfusion (hq ▸ hmap)
  | some a =>
    rw [hq] at hmap
    have hqe : (⟨true, true⟩ : Proc) = q := Option.some.inj hmap
    rw [← hqe]
    exact ⟨rfl, rfl⟩

/-- Witness for C9 at concrete sessions: a not-started wrapper, and a running
wrapper with one spawned process. -/
theorem c9_stop_idempotent_witness :
    stop ⟨true, [], true, true, true, 1920, 1080, 640, 576, 640, 576⟩
        = ⟨true, [], true, true, true, 1920, 1080, 640, 576, 640, 576⟩
    ∧ stop (stop ⟨false, [some ⟨false, false⟩], true, true, true, 1, 1, 1, 1, 1, 1⟩)
        = stop ⟨false, [some ⟨false, false⟩], true, true, true, 1, 1, 1, 1, 1, 1⟩
    ∧ ((⟨true, true⟩ : Proc).stdoutClosed = true ∧ (⟨true, true⟩ : Proc).killed = true) :=
  ⟨c9_stop_idempotent.1 _ rfl,
   c9_stop_idempotent.2.1 _,
   c9_stop_idempotent.2.2 ⟨false, [some ⟨false, false⟩], true, true, true, 1, 1, 1, 1, 1, 1⟩
     rfl (some ⟨true, true⟩) (by decide) ⟨true, true⟩ rfl⟩

/-- C10: advancing the `grab_frame` generator while the session is not started
— whether `start()` was never called or `stop()` has reset the state — raises
the `RuntimeError` before any frame tuple is yielded. -/
theorem c10_grab_frame_requires_start :
    (∀ (w : Wrapper) (cp dp ip : List Buf) (fuel : Nat), w.readyToStart = true →
        grab_frame w cp dp ip fuel
          = .error ("Must call start() before grab_frame()"))
    ∧ (∀ (w : Wrapper) (cp dp ip : List Buf) (fuel : Nat),
        grab_frame (stop w) cp dp ip fuel
          = .error ("Must call start() before grab_frame()")) := by
  have base : ∀ (w : Wrapper) (cp dp ip : List Buf) (fuel : Nat),
      w.readyToStart = true →
      grab_frame w cp dp ip fuel
        = .error ("Must call start() before grab_frame()") := by
    intro w cp dp ip fuel h
    simp [grab_frame, h]
  exact ⟨base, fun w cp dp ip fuel => base (stop w) cp dp ip fuel (stop_readyToStart w)⟩

/-- Witness for C10 at a concrete never-started wrapper and a concrete stopped
wrapper. -/
theorem c10_grab_frame_requires_start_witness :
    grab_frame ⟨true, [], true, true, true, 1, 1, 1, 1, 1, 1⟩ [] [] [] 5
        = .error ("Must call start() before grab_frame()")
    ∧ grab_frame (stop ⟨false, [some ⟨false, false⟩], true, false, false, 1, 1, 0, 0, 0, 0⟩)
          [] [] [] 5
        = .error ("Must call start() before grab_frame()") :=
  ⟨c10_grab_frame_requires_start.1 _ [] [] [] 5 rfl,
   c10_grab_frame_requires_start.2 _ [] [] [] 5⟩

/-- C3: behaviour of the frame loop at the failing input — a running
colour-only session (1×1 BGR frame, so `colour_byte_size = 3`) whose colour
pipe replies with a zero-length buffer (ordinary end-of-stream) on the first
read, and the same session whose pipe replies with a 2-byte short buffer.  In
both cases the loop prints the stream-corruption error (`errorPrinted`),
breaks, calls `stop()`, and makes the all-`None` tuple only the generator's
final `return` value; nothing — in particular no all-`None` sentinel tuple —
is ever yielded to the consumer. -/
theorem c3_zero_length_read_not_clean :
    grab_frame ⟨false, [some ⟨false, false⟩, none, none], true, false, false,
        1, 1, 0, 0, 0, 0⟩ [] [] [] 2
      = .ok (some
          { yielded := [], errorPrinted := true, stopped := true,
            finalReturn := (none, none, none) })
    ∧ grab_frame ⟨false, [some ⟨false, false⟩, none, none], true, false, false,
        1, 1, 0, 0, 0, 0⟩ [[0, 0]] [] [] 2
      = .ok (some
          { yielded := [], errorPrinted := true, stopped := true,
            finalReturn := (none, none, none) }) :=
  ⟨rfl, rfl⟩

/-- Every lookup-table entry is at most 255. -/
theorem lutVal_le_255 (lower upper v : Nat) : lutVal lower upper v ≤ 255 := by
  unfold lutVal
  by_cases h1 : v < lower
  · simp [h1]
  · by_cases h2 : v < upper
    · by_cases h3 : upper - lower = 1
      · simp [h1, h2, h3]
      · have hpos : 0 < upper - lower - 1 := by omega
        have hle : v - lower ≤ upper - lower - 1 := by omega
        simp only [h1, h2, h3, if_false, if_true, if_neg, if_pos]
        calc 255 * (v - lower) / (upper - lower - 1)
            ≤ 255 * (upper - lower - 1) / (upper - lower - 1) :=
              Nat.div_le_div_right (Nat.mul_le_mul_left 255 hle)
          _ = 255 := Nat.mul_div_cancel 255 hpos
    · simp [h1, h2]

/-- With explicitly supplied in-range, strictly increasing bounds,
`map_uint16_to_uint8` succeeds and applies the lookup table pixelwise. -/
theorem map_uint16_to_uint8_ok (img : Img) (lb ub : Int)
    (h0 : 0 ≤ lb) (h1 : lb < ub) (h2 : ub < 65536) :
    map_uint16_to_uint8 img (some lb) (some ub)
      = .ok (lutImg lb.toNat ub.toNat img) := by
  unfold map_uint16_to_uint8 boundOutOfRange
  have e1 : (0 ≤ lb ∧ lb < 65536) := ⟨h0, by omega⟩
  have e2 : (0 ≤ ub ∧ ub < 65536) := ⟨by omega, h2⟩
  have e3 : ¬ lb ≥ ub := not_le.2 h1
  simp [e1, e2, e3]

/-- C7: every explicitly supplied bounds pair that is non-increasing or falls
outside `[0, 65535]` makes `map_uint16_to_uint8` raise a `ValueError` (the
spec's `InvalidWindow`), producing no output image. -/
theorem c7_invalid_window_rejected (image : Img) (lb ub : Int)
    (h : ub ≤ lb ∨ lb < 0 ∨ 65535 < lb ∨ ub < 0 ∨ 65535 < ub) :
    ∃ msg, map_uint16_to_uint8 image (some lb) (some ub) = .error msg := by
  unfold map_uint16_to_uint8 boundOutOfRange
  by_cases e1 : 0 ≤ lb ∧ lb < 65536
  · by_cases e2 : 0 ≤ ub ∧ ub < 65536
    · have e3 : lb ≥ ub := by omega
      simp [e1, e2, e3]
    · simp [e1, e2]
  · simp [e1]

/-- Witness for C7 at the three boundary pairs the spec lists:
(100, 100), (70000, 1) and (-1, 500). -/
theorem c7_invalid_window_rejected_witness :
    (∃ msg, map_uint16_to_uint8 (npZeros 1 1 1) (some 100) (some 100) = .error msg)
    ∧ (∃ msg, map_uint16_to_uint8 (npZeros 1 1 1) (some 70000) (some 1) = .error msg)
    ∧ (∃ msg, map_uint16_to_uint8 (npZeros 1 1 1) (some (-1)) (some 500) = .error msg) :=
  ⟨c7_invalid_window_rejected _ 100 100 (by omega),
   c7_invalid_window_rejected _ 70000 1 (by omega),
   c7_invalid_window_rejected _ (-1) 500 (by omega)⟩

/-- C6: for every valid window, the normalizer's pixel map is monotone
non-decreasing, sends `lower` to 0, saturates to 255 at `upper - 1` or at
`upper`, sends every value at or above `upper` to 255 and every value below
`lower` to 0. -/
theorem c6_normalize_monotone_endpoints (lower upper : Nat)
    (hlu : lower < upper) (_hub : upper ≤ 65535) :
    (∀ v w, v ≤ w → lutVal lower upper v ≤ lutVal lower upper w)
    ∧ lutVal lower upper lower = 0
    ∧ (lutVal lower upper (upper - 1) = 255 ∨ lutVal lower upper upper = 255)
    ∧ (∀ v, upper ≤ v → lutVal lower upper v = 255)
    ∧ (∀ v, v < lower → lutVal lower upper v = 0) := by
  refine ⟨?_, ?_, Or.inr (by simp [lutVal]; omega), ?_, ?_⟩
  · intro v w hvw
    by_cases hv : v < lower
    · have : lutVal lower upper v = 0 := by simp [lutVal, hv]
      rw [this]
      exact Nat.zero_le _
    · by_cases hw : w < upper
      · have hvu : v < upper := lt_of_le_of_lt hvw hw
        have hwl : ¬ w < lower := by omega
        by_cases h3 : upper - lower = 1
        · simp [lutVal, hv, hvu, hw, hwl, h3]
        · have ev : lutVal lower upper v = 255 * (v - lower) / (upper - lower - 1) := by
            simp [lutVal, hv, hvu, h3]
          have ew : lutVal lower upper w = 255 * (w - lower) / (upper - lower - 1) := by
            simp [lutVal, hwl, hw, h3]
          rw [ev, ew]
          exact Nat.div_le_div_right (Nat.mul_le_mul_left 255 (by omega))
      · have : lutVal lower upper w = 255 := by simp [lutVal, hw]; omega
        rw [this]
        exact lutVal_le_255 lower upper v
  · by_cases h3 : upper - lower = 1 <;> simp [lutVal, hlu, h3]
  · intro v hv
    have h1 : ¬ v < lower := by omega
    have h2 : ¬ v < upper := by omega
    simp [lutVal, h1, h2]
  · intro v hv
    simp [lutVal, hv]

/-- Witness for C6 at the window (100, 200) and sample values. -/
theorem c6_normalize_monotone_endpoints_witness :
    lutVal 100 200 150 ≤ lutVal 100 200 160
    ∧ lutVal 100 200 100 = 0
    ∧ (lutVal 100 200 199 = 255 ∨ lutVal 100 200 200 = 255)
    ∧ lutVal 100 200 60000 = 255
    ∧ lutVal 100 200 99 = 0 := by
  obtain ⟨m, e0, esat, eup, elow⟩ := c6_normalize_monotone_endpoints 100 200
    (by omega) (by omega)
  exact ⟨m 150 160 (by omega), e0, esat, eup 60000 (by omega), elow 99 (by omega)⟩

/-- C5 counterexample: with the valid window (0, 3) and the in-window value 1,
the code's lookup table stores `trunc(linspace(0, 255, 3)[1]) = trunc(127.5)
= 127`, whereas the claimed formula `round(255 * (v - lower) / (upper -
lower))` gives `round(255 / 3) = 85`. -/
theorem c5_normalize_counterexample :
    lutVal 0 3 1 = 127 ∧ specNormalize 0 3 1 = 85
      ∧ (lutVal 0 3 1 : ℤ) ≠ specNormalize 0 3 1 := by
  have h1 : lutVal 0 3 1 = 127 := by decide
  have h2 : specNormalize 0 3 1 = 85 := by
    unfold specNormalize
    rw [show (255 * (((1 : ℕ) : ℚ) - ((0 : ℕ) : ℚ))) / (((3 : ℕ) : ℚ) - ((0 : ℕ) : ℚ))
          = ((85 : ℕ) : ℚ) from by norm_num]
    rw [round_natCast]
    norm_num
  refine ⟨h1, h2, ?_⟩
  rw [h1, h2]
  decide

/-- C5 (amended): on a valid window, `map_uint16_to_uint8` sends an in-window
value `v` to the truncated linspace entry
`floor(255 * (v - lower) / (upper - lower - 1))` when the window is wider
than one (a width-one window sends its single in-window value to 0) — not to
`round(255 * (v - lower) / (upper - lower))` — and the resulting
piecewise-linear mapping attains the endpoints exactly: `lower ↦ 0`, and 255
is attained at `upper - 1` (window wider than one) and from `upper` onward.
The image-level normalizer applies exactly this map to every pixel. -/
theorem c5_normalize_linspace_floor (lower upper v : Nat)
    (hlu : lower < upper) (hub : upper ≤ 65535) (hlv : lower ≤ v) (hvu : v < upper) :
    (1 < upper - lower →
        lutVal lower upper v
          = Nat.floor ((255 * ((v : ℚ) - (lower : ℚ)))
              / ((upper : ℚ) - (lower : ℚ) - 1)))
    ∧ (upper - lower = 1 → lutVal lower upper v = 0)
    ∧ lutVal lower upper lower = 0
    ∧ (1 < upper - lower → lutVal lower upper (upper - 1) = 255)
    ∧ lutVal lower upper upper = 255
    ∧ (∀ img : Img,
        map_uint16_to_uint8 img (some (lower : Int)) (some (upper : Int))
          = .ok (lutImg lower upper img)) := by
  have hn : ¬ v < lower := not_lt.2 hlv
  refine ⟨?_, ?_, ?_, ?_, ?_, ?_⟩
  · intro hwide
    have e : lutVal lower upper v = 255 * (v - lower) / (upper - lower - 1) := by
      unfold lutVal
      rw [if_neg hn, if_pos hvu, if_neg (by omega : ¬ upper - lower = 1)]
    have c1 : ((v : ℚ) - (lower : ℚ)) = ((v - lower : ℕ) : ℚ) :=
      (Nat.cast_sub hlv).symm
    have c2 : ((upper : ℚ) - (lower : ℚ) - 1) = ((upper - lower - 1 : ℕ) : ℚ) := by
      rw [Nat.cast_sub (by omega : 1 ≤ upper - lower),
        Nat.cast_sub (le_of_lt hlu)]
      norm_num
    rw [e, c1, c2,
      show (255 : ℚ) * ((v - lower : ℕ) : ℚ) = ((255 * (v - lower) : ℕ) : ℚ) from by
        push_cast
        ring]
    rw [Nat.floor_div_nat, Nat.floor_natCast]
  · intro hone
    simp [lutVal, hn, hvu, hone]
  · by_cases h3 : upper - lower = 1 <;> simp [lutVal, hlu, h3]
  · intro hwide
    have h1 : ¬ upper - 1 < lower := by omega
    have h2 : upper - 1 < upper := by omega
    have e : lutVal lower upper (upper - 1)
        = 255 * (upper - 1 - lower) / (upper - lower - 1) := by
      unfold lutVal
      rw [if_neg h1, if_pos h2, if_neg (by omega : ¬ upper - lower = 1)]
    rw [e, (by omega : upper - 1 - lower = upper - lower - 1)]
    exact Nat.mul_div_cancel 255 (by omega)
  · unfold lutVal
    rw [if_neg (by omega : ¬ upper < lower), if_neg (lt_irrefl upper)]
  · intro img
    have hok := map_uint16_to_uint8_ok img (lower : Int) (upper : Int)
      (Int.natCast_nonneg lower) (by exact_mod_cast hlu) (by omega)
    simpa using hok

/-- Witness for C5 at the window (10, 20) and the in-window value 15. -/
theorem c5_normalize_linspace_floor_witness :
    lutVal 10 20 15
      = Nat.floor ((255 * (((15 : ℕ) : ℚ) - ((10 : ℕ) : ℚ)))
          / (((20 : ℕ) : ℚ) - ((10 : ℕ) : ℚ) - 1))
    ∧ lutVal 10 20 10 = 0
    ∧ lutVal 10 20 19 = 255
    ∧ lutVal 10 20 20 = 255 := by
  obtain ⟨hf, _, e0, e255, eup, _⟩ := c5_normalize_linspace_floor 10 20 15
    (by omega) (by omega) (by omega) (by omega)
  exact ⟨hf (by omega), e0, e255 (by omega), eup⟩

/-- C1 counterexample: for a first stream reporting
`r_frame_rate = "30000/1001"` (NTSC 29.97 fps), the resolver keeps only the
part before the slash and yields 30000, not 30000 ÷ 1001. -/
theorem c1_frame_rate_counterexample :
    resolvedFrameRate ("30000/1001".toList) = some ((30000 : ℕ) : ℚ)
    ∧ specFrameRate ("30000/1001".toList)
        = some (((30000 : ℕ) : ℚ) / ((1001 : ℕ) : ℚ))
    ∧ ((30000 : ℕ) : ℚ) ≠ ((30000 : ℕ) : ℚ) / ((1001 : ℕ) : ℚ) := by
  refine ⟨rfl, rfl, ?_⟩
  push_cast
  norm_num

/-- C1 (amended): the resolver's scalar output equals the numerator of the
reported rational alone; it agrees with numerator ÷ denominator exactly when
the denominator is 1 (or the numerator is 0), as for the common "30/1". -/
theorem c1_frame_rate_numerator_only (s num den : List Char) (n d : Nat)
    (hsplit : splitOnChar '/' s [] = [num, den])
    (hnum : digitsToNat? num = some n) (hden : digitsToNat? den = some d)
    (hd : d ≠ 0) :
    resolvedFrameRate s = some ((n : ℚ))
    ∧ specFrameRate s = some ((n : ℚ) / (d : ℚ))
    ∧ (resolvedFrameRate s = specFrameRate s ↔ (d = 1 ∨ n = 0)) := by
  have e1 : resolvedFrameRate s = some ((n : ℚ)) := by
    unfold resolvedFrameRate
    rw [hsplit]
    simp [hnum]
  have e2 : specFrameRate s = some ((n : ℚ) / (d : ℚ)) := by
    unfold specFrameRate
    rw [hsplit]
    simp [hnum, hden, hd]
  refine ⟨e1, e2, ?_⟩
  rw [e1, e2]
  constructor
  · intro h
    have h' : (n : ℚ) = (n : ℚ) / (d : ℚ) := Option.some.inj h
    have hd' : ((d : ℚ)) ≠ 0 := by exact_mod_cast hd
    rw [eq_div_iff hd'] at h'
    rcases mul_right_eq_self₀.mp h' with h1 | h0
    · exact Or.inl (by exact_mod_cast h1)
    · exact Or.inr (by exact_mod_cast h0)
  · intro h
    rcases h with h1 | h0
    · subst h1; norm_num
    · subst h0; norm_num

/-- Witness for C1 at the reported rate "30/1", where the resolver's value and
the specified numerator ÷ denominator agree. -/
theorem c1_frame_rate_numerator_only_witness :
    resolvedFrameRate ("30/1".toList) = some (((30 : ℕ) : ℚ))
    ∧ specFrameRate ("30/1".toList) = some (((30 : ℕ) : ℚ) / ((1 : ℕ) : ℚ))
    ∧ (resolvedFrameRate ("30/1".toList) = specFrameRate ("30/1".toList)
        ↔ ((1 : ℕ) = 1 ∨ (30 : ℕ) = 0)) :=
  c1_frame_rate_numerator_only ("30/1".toList) (['3', '0']) (['1']) 30 1
    rfl rfl rfl (by decide)

/-- Specification of the catch-up loop `skipFrames`: starting at loop head
state `(i, c, now)` with `now` at most the next clock sample, a terminating
run reads exactly the consecutive frame indices from `i` up to (excluding) the
final counter — each requested once, none ever re-requested — and exits with
the final sampled time at or before the target of the final counter; if the
loop body ran at all, the target of the last frame read is strictly before the
final sampled time, and if it never ran the state is unchanged. -/
theorem skipFrames_spec (startTime frameRate : ℚ) (clock : Nat → ℚ)
    (hmono : ∀ a b : Nat, a ≤ b → clock a ≤ clock b) :
    ∀ (fuel i c : Nat) (now : ℚ), now ≤ clock c →
      ∀ (reads : List Nat) (iF cF : Nat) (nowF : ℚ),
        skipFrames startTime frameRate clock fuel i c now
          = some (reads, iF, cF, nowF) →
        reads = List.range' i (iF - i) ∧ i ≤ iF
        ∧ nowF ≤ targetTime startTime frameRate iF
        ∧ (targetTime startTime frameRate i < now →
            i < iF ∧ targetTime startTime frameRate (iF - 1) < nowF)
        ∧ (now ≤ targetTime startTime frameRate i → iF = i ∧ nowF = now) := by
  intro fuel
  induction fuel with
  | zero =>
    intro i c now _ reads iF cF nowF h
    exact absurd h (by simp [skipFrames])
  | succ fuel ih =>
    intro i c now hnow reads iF cF nowF h
    unfold skipFrames at h
    by_cases hgt : targetTime startTime frameRate i < now
    · rw [if_pos hgt] at h
      cases hrec : skipFrames startTime frameRate clock fuel (i + 1) (c + 1) (clock c) with
      | none => rw [hrec] at h; exact absurd h (by simp)
      | some r =>
        obtain ⟨reads', iF', cF', nowF'⟩ := r
        rw [hrec] at h
        simp only [Option.some.injEq, Prod.mk.injEq] at h
        obtain ⟨h1, h2, h3, h4⟩ := h
        subst h1 h2 h3 h4
        have hcc : clock c ≤ clock (c + 1) := hmono c (c + 1) (Nat.le_succ c)
        obtain ⟨e1, e2, e3, e4, e5⟩ :=
          ih (i + 1) (c + 1) (clock c) hcc reads' iF' cF' nowF' hrec
        refine ⟨?_, by omega, e3, fun _ => ⟨by omega, ?_⟩,
          fun hle => absurd hgt (not_lt.2 hle)⟩
        · rw [show iF' - i = (iF' - (i + 1)) + 1 from by omega, List.range'_succ, e1]
        · by_cases hks : targetTime startTime frameRate (i + 1) < clock c
          · exact (e4 hks).2
          · obtain ⟨hif, hnf⟩ := e5 (not_lt.1 hks)
            rw [hif, hnf]
            simpa using lt_of_lt_of_le hgt hnow
    · rw [if_neg hgt] at h
      simp only [Option.some.injEq, Prod.mk.injEq] at h
      obtain ⟨h1, h2, h3, h4⟩ := h
      subst h1 h2 h3 h4
      exact ⟨by simp, le_refl i, not_lt.1 hgt,
        fun hc => absurd hc hgt, fun _ => ⟨rfl, rfl⟩⟩

/-- C4: in realtime mode, at a tick whose sampled wall-clock time is past the
current frame's target, the reader repeatedly reads and discards frames —
advancing the counter, recomputing the target and re-sampling the clock —
until the sampled time no longer exceeds the target; the reads cover exactly
the consecutive indices from the starting counter (none delivered twice, none
re-requested), the frame finally delivered (the last one read, index `iF - 1`)
is the most recent one whose target time has passed at exit, and every index
whose target has passed lies below the final counter. -/
theorem c4_realtime_catchup (startTime frameRate : ℚ) (clock : Nat → ℚ)
    (fuel i c : Nat) (reads : List Nat) (iF cF : Nat) (nowF : ℚ)
    (hr : 0 < frameRate)
    (hmono : ∀ a b : Nat, a ≤ b → clock a ≤ clock b)
    (hlate : targetTime startTime frameRate i < clock c)
    (h : realtimeTick startTime frameRate clock fuel i c
      = some (reads, iF, cF, nowF)) :
    reads = List.range' i (iF - i)
    ∧ i < iF
    ∧ nowF ≤ targetTime startTime frameRate iF
    ∧ targetTime startTime frameRate (iF - 1) < nowF
    ∧ (∀ j : Nat, targetTime startTime frameRate j < nowF → j < iF) := by
  unfold realtimeTick at h
  simp only [] at h
  rw [if_neg (not_lt.2 (le_of_lt hlate)), if_pos hlate] at h
  obtain ⟨e1, e2, e3, e4, e5⟩ := skipFrames_spec startTime frameRate clock hmono
    fuel i (c + 1) (clock c) (hmono c (c + 1) (Nat.le_succ c)) reads iF cF nowF h
  obtain ⟨hlt, hbound⟩ := e4 hlate
  refine ⟨e1, hlt, e3, hbound, fun j hj => ?_⟩
  have hjf : targetTime startTime frameRate j < targetTime startTime frameRate iF :=
    lt_of_lt_of_le hj e3
  unfold targetTime at hjf
  have hdiv : (j : ℚ) / frameRate < (iF : ℚ) / frameRate := by linarith
  have hcast : (j : ℚ) < (iF : ℚ) := (div_lt_div_iff_of_pos_right hr).mp hdiv
  exact_mod_cast hcast

/-- Witness for C4 at the spec's example: frame rate 30, start time 0, and a
wall clock that has jumped 500 ms ahead; the tick discards frames 0..13, the
delivered frame is index 14 (the most recent one whose target 14/30 has
passed), and the loop exits at counter 15 with target 15/30 = 1/2 = now. -/
theorem c4_realtime_catchup_witness :
    realtimeTick 0 30 (fun _ => (1 : ℚ) / 2) 20 0 0
      = some (List.range' 0 15, 15, 16, 1 / 2)
    ∧ (0 : ℕ) < 15
    ∧ targetTime 0 30 (15 - 1) < 1 / 2
    ∧ (1 : ℚ) / 2 ≤ targetTime 0 30 15 := by
  have h : realtimeTick 0 30 (fun _ => (1 : ℚ) / 2) 20 0 0
      = some (List.range' 0 15, 15, 16, 1 / 2) := by
    norm_num [realtimeTick, skipFrames, targetTime, List.range']
  obtain ⟨_, hlt, hle, hlast, _⟩ := c4_realtime_catchup 0 30 (fun _ => (1 : ℚ) / 2)
    20 0 0 (List.range' 0 15) 15 16 (1 / 2) (by norm_num)
    (fun _ _ _ => le_refl _) (by norm_num [targetTime]) h
  exact ⟨h, hlt, hlast, hle⟩

/-- Binding a successful `Except` computation proceeds with its value. -/
theorem except_bind_ok {α β : Type} (a : α) (f : α → Except String β) :
    (Except.ok a >>= f) = f a := rfl

/-- A numpy slice assignment with in-bounds slice limits and an exactly
matching source shape succeeds and pastes the data. -/
theorem pasteSlice_ok (canvas src : Img) (y0 y1 x0 x1 : Nat)
    (hy0 : y0 ≤ canvas.height) (hy1 : y1 ≤ canvas.height)
    (hx0 : x0 ≤ canvas.width) (hx1 : x1 ≤ canvas.width)
    (hh : y1 - y0 = src.height) (hw : x1 - x0 = src.width)
    (hc : canvas.channels = src.channels) :
    pasteSlice canvas src y0 y1 x0 x1 = .ok (pasteData canvas src y0 y1 x0 x1) := by
  unfold pasteSlice
  simp only [min_eq_left hy0, min_eq_left hy1, min_eq_left hx0, min_eq_left hx1]
  rw [if_pos ⟨⟨hh, hw⟩, hc⟩]

/-- C2 counterexample: with all three images present but IR taller than depth
(colour 2×2, depth 1×1, IR 2×1, valid windows), the canvas is allocated with
height `colour.height + depth.height = 3` — not `colour.height +
max(depth.height, ir.height) = 4` as claimed — and pasting the 2-row IR image
into the 1-row bottom strip fails with a broadcast `ValueError`, so no canvas
of the claimed shape is returned. -/
theorem c2_compose_counterexample :
    combine_images (some ⟨2, 2, 3, fun _ _ _ => 0⟩) (some ⟨1, 1, 1, fun _ _ _ => 0⟩)
        (some ⟨2, 1, 1, fun _ _ _ => 0⟩) (0, 255) (0, 255)
      = .error ("could not broadcast input array") := rfl

/-- Grey-to-BGR conversion preserves the height. -/
theorem cvtGray2BGR_height (img : Img) : (cvtGray2BGR img).height = img.height := rfl

/-- Grey-to-BGR conversion preserves the width. -/
theorem cvtGray2BGR_width (img : Img) : (cvtGray2BGR img).width = img.width := rfl

/-- Grey-to-BGR conversion yields three channels. -/
theorem cvtGray2BGR_channels (img : Img) : (cvtGray2BGR img).channels = 3 := rfl

/-- Lookup-table application preserves the height. -/
theorem lutImg_height (l u : Nat) (img : Img) : (lutImg l u img).height = img.height := rfl

/-- Lookup-table application preserves the width. -/
theorem lutImg_width (l u : Nat) (img : Img) : (lutImg l u img).width = img.width := rfl

/-- A zero canvas has the requested height. -/
theorem npZeros_height (h w c : Nat) : (npZeros h w c).height = h := rfl

/-- A zero canvas has the requested width. -/
theorem npZeros_width (h w c : Nat) : (npZeros h w c).width = w := rfl

/-- A zero canvas has the requested channel count. -/
theorem npZeros_channels (h w c : Nat) : (npZeros h w c).channels = c := rfl

/-- A slice assignment preserves the canvas height. -/
theorem pasteData_height (canvas src : Img) (y0 y1 x0 x1 : Nat) :
    (pasteData canvas src y0 y1 x0 x1).height = canvas.height := rfl

/-- A slice assignment preserves the canvas width. -/
theorem pasteData_width (canvas src : Img) (y0 y1 x0 x1 : Nat) :
    (pasteData canvas src y0 y1 x0 x1).width = canvas.width := rfl

/-- A slice assignment preserves the canvas channel count. -/
theorem pasteData_channels (canvas src : Img) (y0 y1 x0 x1 : Nat) :
    (pasteData canvas src y0 y1 x0 x1).channels = canvas.channels := rfl

/-- With all three images present, matching depth/IR heights and valid
windows, `combine_images` succeeds and returns exactly the
`combineAllThree` canvas. -/
theorem combine_all_three_eq (r d i : Img) (dmm imm : Int × Int)
    (hrc : r.channels = 3) (hdh : d.height = i.height)
    (hd0 : 0 ≤ dmm.1) (hd1 : dmm.1 < dmm.2) (hd2 : dmm.2 < 65536)
    (hi0 : 0 ≤ imm.1) (hi1 : imm.1 < imm.2) (hi2 : imm.2 < 65536) :
    combine_images (some r) (some d) (some i) dmm imm
      = .ok (combineAllThree r d i dmm imm) := by
  have hmapd := map_uint16_to_uint8_ok d dmm.1 dmm.2 hd0 hd1 hd2
  have hmapi := map_uint16_to_uint8_ok i imm.1 imm.2 hi0 hi1 hi2
  have hrW : r.width ≤ max r.width (d.width + i.width) := le_max_left _ _
  have hdiW : d.width + i.width ≤ max r.width (d.width + i.width) := le_max_right _ _
  have hofs : (max r.width (d.width + i.width) - r.width) / 2 + r.width
      ≤ max r.width (d.width + i.width) := by
    have := Nat.div_le_self (max r.width (d.width + i.width) - r.width) 2
    omega
  have hp1 := pasteSlice_ok
    (npZeros (r.height + d.height) (max r.width (d.width + i.width)) 3) r
    0 r.height
    ((max r.width (d.width + i.width) - r.width) / 2)
    ((max r.width (d.width + i.width) - r.width) / 2 + r.width)
    (by simp [npZeros_height]) (by simp [npZeros_height])
    (by simp only [npZeros_width]; omega) (by simp only [npZeros_width]; omega)
    (by omega) (by omega) hrc.symm
  have hp2 := pasteSlice_ok
    (pasteData (npZeros (r.height + d.height) (max r.width (d.width + i.width)) 3) r
      0 r.height
      ((max r.width (d.width + i.width) - r.width) / 2)
      ((max r.width (d.width + i.width) - r.width) / 2 + r.width))
    (cvtGray2BGR (lutImg dmm.1.toNat dmm.2.toNat d))
    r.height (r.height + d.height) 0 d.width
    (by simp only [pasteData_height, npZeros_height]; omega)
    (by simp only [pasteData_height, npZeros_height]; omega)
    (by simp only [pasteData_width, npZeros_width]; omega)
    (by simp only [pasteData_width, npZeros_width]; omega)
    (by simp only [cvtGray2BGR_height, lutImg_height]; omega)
    (by simp only [cvtGray2BGR_width, lutImg_width]; omega)
    (by simp only [pasteData_channels, npZeros_channels, cvtGray2BGR_channels])
  have hp3 := pasteSlice_ok
    (pasteData
      (pasteData (npZeros (r.height + d.height) (max r.width (d.width + i.width)) 3) r
        0 r.height
        ((max r.width (d.width + i.width) - r.width) / 2)
        ((max r.width (d.width + i.width) - r.width) / 2 + r.width))
      (cvtGray2BGR (lutImg dmm.1.toNat dmm.2.toNat d))
      r.height (r.height + d.height) 0 d.width)
    (cvtGray2BGR (lutImg imm.1.toNat imm.2.toNat i))
    r.height (r.height + d.height)
    (max r.width (d.width + i.width) - i.width) (max r.width (d.width + i.width))
    (by simp only [pasteData_height, npZeros_height]; omega)
    (by simp only [pasteData_height, npZeros_height]; omega)
    (by simp only [pasteData_width, npZeros_width]; omega)
    (by simp only [pasteData_width, npZeros_width]; omega)
    (by simp only [cvtGray2BGR_height, lutImg_height]; omega)
    (by simp only [cvtGray2BGR_width, lutImg_width]; omega)
    (by simp only [pasteData_channels, npZeros_channels, cvtGray2BGR_channels])
  simp only [combine_images, hmapd, hmapi, except_bind_ok, cvtGray2BGR_height,
    cvtGray2BGR_width, lutImg_height, lutImg_width, npZeros_height, npZeros_width,
    hp1, hp2, hp3, combineAllThree, combinedWidth, rgbOffset]
  rfl

/-- C2 (amended): when colour, depth and IR are all present and depth and IR
have the same height (the code rejects differing heights with a broadcast
error — see the counterexample), `combine_images` returns a canvas of width
`max(colour.width, depth.width + ir.width)` and height
`colour.height + max(depth.height, ir.height)` with 3 channels, colour placed
on the top rows horizontally centred, normalized depth occupying the
bottom-left columns, normalized IR flush against the right edge on the
bottom, and the canvas zero-filled elsewhere. -/
theorem c2_compose_all_three_layout (r d i : Img) (dmm imm : Int × Int)
    (hrc : r.channels = 3) (hdh : d.height = i.height)
    (hd0 : 0 ≤ dmm.1) (hd1 : dmm.1 < dmm.2) (hd2 : dmm.2 < 65536)
    (hi0 : 0 ≤ imm.1) (hi1 : imm.1 < imm.2) (hi2 : imm.2 < 65536) :
    ∃ out : Img,
      combine_images (some r) (some d) (some i) dmm imm = .ok out
      ∧ out.width = combinedWidth r d i
      ∧ out.height = r.height + max d.height i.height
      ∧ out.channels = 3
      ∧ (∀ y x c, y < r.height → rgbOffset r d i ≤ x → x < rgbOffset r d i + r.width →
          out.data y x c = r.data y (x - rgbOffset r d i) c)
      ∧ (∀ y x c, y < r.height → x < combinedWidth r d i →
          (x < rgbOffset r d i ∨ rgbOffset r d i + r.width ≤ x) →
          out.data y x c = 0)
      ∧ (∀ y x c, r.height ≤ y → y < r.height + max d.height i.height → x < d.width →
          out.data y x c = lutVal dmm.1.toNat dmm.2.toNat (d.data (y - r.height) x 0))
      ∧ (∀ y x c, r.height ≤ y → y < r.height + max d.height i.height →
          combinedWidth r d i - i.width ≤ x → x < combinedWidth r d i →
          out.data y x c = lutVal imm.1.toNat imm.2.toNat
            (i.data (y - r.height) (x - (combinedWidth r d i - i.width)) 0))
      ∧ (∀ y x c, r.height ≤ y → y < r.height + max d.height i.height →
          d.width ≤ x → x < combinedWidth r d i - i.width →
          out.data y x c = 0) := by
  have hmax : max d.height i.height = d.height := by rw [hdh, max_self]
  have hrW : r.width ≤ combinedWidth r d i := le_max_left _ _
  have hdiW : d.width + i.width ≤ combinedWidth r d i := le_max_right _ _
  have hofs : rgbOffset r d i + r.width ≤ combinedWidth r d i := by
    unfold rgbOffset
    have := Nat.div_le_self (combinedWidth r d i - r.width) 2
    omega
  have hdata : ∀ y x c, (combineAllThree r d i dmm imm).data y x c =
      (if r.height ≤ y ∧ y < r.height + d.height
          ∧ combinedWidth r d i - i.width ≤ x ∧ x < combinedWidth r d i then
        lutVal imm.1.toNat imm.2.toNat
          (i.data (y - r.height) (x - (combinedWidth r d i - i.width)) 0)
      else if r.height ≤ y ∧ y < r.height + d.height ∧ 0 ≤ x ∧ x < d.width then
        lutVal dmm.1.toNat dmm.2.toNat (d.data (y - r.height) (x - 0) 0)
      else if 0 ≤ y ∧ y < r.height
          ∧ rgbOffset r d i ≤ x ∧ x < rgbOffset r d i + r.width then
        r.data (y - 0) (x - rgbOffset r d i) c
      else 0) := fun y x c => rfl
  refine ⟨combineAllThree r d i dmm imm,
    combine_all_three_eq r d i dmm imm hrc hdh hd0 hd1 hd2 hi0 hi1 hi2,
    rfl, ?_, rfl, ?_, ?_, ?_, ?_, ?_⟩
  · show r.height + d.height = r.height + max d.height i.height
    omega
  · intro y x c hy h1 h2
    rw [hdata]
    split_ifs with hA hB hC
    · exfalso; omega
    · exfalso; omega
    · simp
    · exfalso; omega
  · intro y x c hy hxW hside
    rw [hdata]
    split_ifs with hA hB hC
    · exfalso; omega
    · exfalso; omega
    · exfalso; omega
    · rfl
  · intro y x c hy1 hy2 hx
    rw [hdata]
    split_ifs with hA hB hC
    · exfalso; omega
    · simp
    · exfalso; omega
    · exfalso; omega
  · intro y x c hy1 hy2 hx1 hx2
    rw [hdata]
    split_ifs with hA hB hC
    · rfl
    · exfalso; omega
    · exfalso; omega
    · exfalso; omega
  · intro y x c hy1 hy2 hx1 hx2
    rw [hdata]
    split_ifs with hA hB hC
    · exfalso; omega
    · exfalso; omega
    · exfalso; omega
    · rfl

/-- Witness for C2 at the spec's example geometry: 1920×1080 colour and
640×576 depth and IR give exactly a 1920×1656 canvas. -/
theorem c2_compose_all_three_layout_witness :
    ∃ out : Img,
      combine_images (some ⟨1080, 1920, 3, fun _ _ _ => 0⟩)
          (some ⟨576, 640, 1, fun _ _ _ => 0⟩)
          (some ⟨576, 640, 1, fun _ _ _ => 0⟩)
          (0, 65535) (0, 65535) = .ok out
      ∧ out.width = 1920 ∧ out.height = 1656 := by
  obtain ⟨out, he, hw, hh, _⟩ := c2_compose_all_three_layout
    ⟨1080, 1920, 3, fun _ _ _ => 0⟩ ⟨576, 640, 1, fun _ _ _ => 0⟩
    ⟨576, 640, 1, fun _ _ _ => 0⟩ (0, 65535) (0, 65535)
    rfl rfl (by decide) (by decide) (by decide) (by decide) (by decide) (by decide)
  refine ⟨out, he, ?_, ?_⟩
  · rw [hw]; rfl
  · rw [hh]; rfl

end AzureKinect
